import Mathlib

/-!
Shallow embedding of the voice-interview session coordinator
(`src/components/VoiceInterviewScreen.tsx`) and the speech-output adapter
(`src/utils/speechSynthesis.ts`).

The coordinator's React state hooks become fields of `CoordState`; each event
handler (`startVoiceInterview`, `pauseInterview`, `resumeInterview`,
`endInterview`, `submitVoiceResponse`) becomes a function from the state (plus
an environment record fixing the outcome of each awaited external call) to the
new state together with the list of external calls it issued.  The external
collaborators (`useLiveKit`, `useSpeechRecognition`, `VoiceInterviewService`,
`AIInterviewSimulator`) are not part of the repository's sources; only the
calls the coordinator makes into them are modelled, as entries of `Call`, and
their success or failure is an input.
-/

namespace VoiceInterview

/-- The JS `String.prototype.trim` over the character list (ASCII whitespace
model): leading and trailing whitespace removed.  `transcript.trim()` is
empty, and hence falsy, exactly when the transcript is empty or
whitespace-only. -/
def trimL (l : List Char) : List Char :=
  ((l.dropWhile Char.isWhitespace).reverse.dropWhile Char.isWhitespace).reverse

/-- The JS truthiness test `transcript.trim()` (an empty string is falsy):
true exactly when the trimmed transcript is nonempty. -/
def trimNonempty (s : String) : Bool :=
  !(trimL s.toList).isEmpty

/-- Connection status, from the `connectionStatus` React state
(`'disconnected' | 'connecting' | 'connected' | 'error'`). -/
inductive ConnStatus where
  | disconnected
  | connecting
  | connected
  | error
deriving DecidableEq, Repr

/-- The session handle returned by `VoiceInterviewService.startVoiceInterview`:
`sessionId`, transport credentials and an optional first question
(`session.firstQuestion` may be absent, the code reads `session.firstQuestion || ''`). -/
structure VoiceSession where
  sessionId : Nat
  wsUrl : String
  participantToken : String
  firstQuestion : Option String
deriving DecidableEq, Repr

/-- The payload `result.nextQuestion` of a processed voice response. -/
structure NextQuestion where
  question : String
deriving DecidableEq, Repr

/-- The result of `VoiceInterviewService.processVoiceResponse`:
`{isComplete, nextQuestion?}`. -/
structure SubmitResult where
  isComplete : Bool
  nextQuestion : Option NextQuestion
deriving DecidableEq, Repr

/-- Coordinator state: the React `useState` cells of `VoiceInterviewScreen`
together with the observable state of the speech-input and transport adapters
that the handlers drive (`isListening`, the local audio track, the LiveKit
connection).  `ended` records that `onEndInterview` has been invoked
(the terminal `Ended` state of the spec). -/
structure CoordState where
  isInterviewActive : Bool
  currentQuestion : String
  startTime : Option Nat
  isThinking : Bool
  voiceSession : Option VoiceSession
  connectionStatus : ConnStatus
  transcript : String
  isListening : Bool
  audioActive : Bool
  livekitConnected : Bool
  ended : Bool
deriving DecidableEq, Repr

/-- The initial state: the `useState` defaults of the component (no session,
disconnected, empty transcript and question, nothing active). -/
def initState : CoordState :=
  { isInterviewActive := false
    currentQuestion := ""
    startTime := none
    isThinking := false
    voiceSession := none
    connectionStatus := ConnStatus.disconnected
    transcript := ""
    isListening := false
    audioActive := false
    livekitConnected := false
    ended := false }

/-- External calls issued by the coordinator's handlers, in issue order. -/
inductive Call where
  | startSessionCall
  | connectCall
  | stopListeningCall
  | stopAudioCall
  | startAudioCall
  | disconnectCall
  | pauseSessionCall
  | resumeSessionCall
  | endSessionCall
  | processResponseCall
  | simSubmitCall
  | resetTranscriptCall
  | onEndInterviewCall
deriving DecidableEq, Repr

/-- Outcomes of the external calls awaited by `startVoiceInterview`:
`session = none` models `VoiceInterviewService.startVoiceInterview` rejecting;
`connectOk = false` models `connectLiveKit()` rejecting; `now` is `Date.now()`. -/
structure StartEnv where
  session : Option VoiceSession
  connectOk : Bool
  now : Nat
deriving DecidableEq, Repr

/-- `startVoiceInterview` (VoiceInterviewScreen.tsx lines 135-156): sets
thinking and `connecting`, awaits session creation, stores the handle and the
first question, awaits `connectLiveKit()` (whose `onConnected` callback, lines
76-79, sets the status to `connected`), then marks the interview active; the
`catch` block sets the status to `error` and clears the thinking flag.  No
cleanup call is made on failure. -/
def startVoiceInterview (env : StartEnv) (s : CoordState) : CoordState × List Call :=
  let s0 := { s with isThinking := true, connectionStatus := ConnStatus.connecting }
  match env.session with
  | none =>
      ({ s0 with connectionStatus := ConnStatus.error, isThinking := false },
       [Call.startSessionCall])
  | some sess =>
      let s1 := { s0 with voiceSession := some sess,
                          currentQuestion := sess.firstQuestion.getD "" }
      if env.connectOk then
        ({ s1 with livekitConnected := true, connectionStatus := ConnStatus.connected,
                   isInterviewActive := true, startTime := some env.now,
                   isThinking := false },
         [Call.startSessionCall, Call.connectCall])
      else
        ({ s1 with connectionStatus := ConnStatus.error, isThinking := false },
         [Call.startSessionCall, Call.connectCall])

/-- `pauseInterview` (lines 158-170): unconditionally clears the active flag,
calls `stopListening()` and `stopAudio()`, and, when a session handle exists,
awaits `VoiceInterviewService.pauseInterview` inside `try/catch` (a failure is
only logged, so the resulting state does not depend on `pauseOk`). -/
def pauseInterview (pauseOk : Bool) (s : CoordState) : CoordState × List Call :=
  let s1 := { s with isInterviewActive := false, isListening := false,
                     audioActive := false }
  match s.voiceSession with
  | some _ => (s1, [Call.stopListeningCall, Call.stopAudioCall, Call.pauseSessionCall])
  | none => (s1, [Call.stopListeningCall, Call.stopAudioCall])

/-- `resumeInterview` (lines 172-183): sets the active flag first; when a
session handle exists it awaits `VoiceInterviewService.resumeInterview` and
then `startAudio()` inside one `try/catch` whose handler only logs.  If the
remote resume rejects (`resumeOk = false`), `startAudio` is never reached; if
`startAudio` rejects (`audioOk = false`), no local audio is acquired.  The
connection status is never touched. -/
def resumeInterview (resumeOk audioOk : Bool) (s : CoordState) : CoordState × List Call :=
  let s1 := { s with isInterviewActive := true }
  match s.voiceSession with
  | none => (s1, [])
  | some _ =>
      if resumeOk then
        if audioOk then
          ({ s1 with audioActive := true },
           [Call.resumeSessionCall, Call.startAudioCall])
        else
          (s1, [Call.resumeSessionCall, Call.startAudioCall])
      else
        (s1, [Call.resumeSessionCall])

/-- `endInterview` (lines 185-200): clears the active flag, calls
`stopListening()`, `stopAudio()` and `disconnectLiveKit()` (whose
`onDisconnected` callback, lines 80-83, sets the status to `disconnected`),
then, when a session handle exists, awaits `VoiceInterviewService.endInterview`
inside `try/catch` (failure only logged, so the state does not depend on
`endOk`), and finally invokes `onEndInterview` (recorded by `ended`). -/
def endInterview (endOk : Bool) (s : CoordState) : CoordState × List Call :=
  let s1 := { s with isInterviewActive := false, isListening := false,
                     audioActive := false, livekitConnected := false,
                     connectionStatus := ConnStatus.disconnected, ended := true }
  match s.voiceSession with
  | some _ =>
      (s1, [Call.stopListeningCall, Call.stopAudioCall, Call.disconnectCall,
            Call.endSessionCall, Call.onEndInterviewCall])
  | none =>
      (s1, [Call.stopListeningCall, Call.stopAudioCall, Call.disconnectCall,
            Call.onEndInterviewCall])

/-- Outcomes of the calls awaited by `submitVoiceResponse`:
`result = none` models `VoiceInterviewService.processVoiceResponse` rejecting;
`simOk = false` models `simulator.submitResponse` rejecting; `endOk` is passed
to `endInterview` when the remote result reports completion. -/
structure SubmitEnv where
  result : Option SubmitResult
  simOk : Bool
  endOk : Bool
deriving DecidableEq, Repr

/-- `submitVoiceResponse` (lines 202-233): returns immediately when the
trimmed transcript is empty or no session handle exists; otherwise stops
listening, sets the thinking flag, awaits `processVoiceResponse` and
`simulator.submitResponse`; on a result with `isComplete` it invokes
`endInterview()`, on a result carrying `nextQuestion` it updates the current
question and resets the transcript; any rejection is caught and only logged;
the thinking flag is cleared on every non-no-op path. -/
def submitVoiceResponse (env : SubmitEnv) (s : CoordState) : CoordState × List Call :=
  if trimNonempty s.transcript = false ∨ s.voiceSession = none then (s, [])
  else
    let s1 := { s with isListening := false, isThinking := true }
    match env.result with
    | none =>
        ({ s1 with isThinking := false },
         [Call.stopListeningCall, Call.processResponseCall])
    | some r =>
        if env.simOk then
          if r.isComplete then
            let (s2, cs2) := endInterview env.endOk s1
            ({ s2 with isThinking := false },
             [Call.stopListeningCall, Call.processResponseCall, Call.simSubmitCall] ++ cs2)
          else
            match r.nextQuestion with
            | some q =>
                ({ s1 with currentQuestion := q.question, transcript := "",
                           isThinking := false },
                 [Call.stopListeningCall, Call.processResponseCall,
                  Call.simSubmitCall, Call.resetTranscriptCall])
            | none =>
                ({ s1 with isThinking := false },
                 [Call.stopListeningCall, Call.processResponseCall, Call.simSubmitCall])
        else
          ({ s1 with isThinking := false },
           [Call.stopListeningCall, Call.processResponseCall, Call.simSubmitCall])

end VoiceInterview

namespace SpeechSynth

/-- Boolean prefix test on character lists (the JS `String.prototype.startsWith`). -/
def prefixL : List Char → List Char → Bool
  | [], _ => true
  | _ :: _, [] => false
  | a :: as, b :: bs => a == b && prefixL as bs

/-- Boolean substring test on character lists (the JS `String.prototype.includes`). -/
def hasSubL (pat : List Char) : List Char → Bool
  | [] => prefixL pat []
  | c :: t => prefixL pat (c :: t) || hasSubL pat t

/-- Character-list lowercasing (the JS `String.prototype.toLowerCase`,
restricted to the ASCII range, which covers every string the adapter
compares). -/
def lowerL (l : List Char) : List Char :=
  l.map Char.toLower

/-- A speech-synthesis voice as the adapter reads it: `name` and `lang`. -/
structure Voice where
  name : String
  lang : String
deriving DecidableEq, Repr

/-- The fixed feminine-name tokens of `getPreferredVoice`
(speechSynthesis.ts lines 54-60), already lowercase as in the source. -/
def femaleTokens : List String :=
  ["female", "woman", "samantha", "karen", "zira", "susan", "allison"]

/-- The JS `lang.split('-')[0]`: the text before the first hyphen (the whole
string when it has no hyphen). -/
def primarySubtag (lang : String) : List Char :=
  lang.toList.takeWhile (fun c => c ≠ '-')

/-- The language test of `getPreferredVoice`:
`voice.lang.startsWith(lang.split('-')[0])`.  Note this comparison is
case-sensitive in the source; only the name matching is lowercased. -/
def langMatches (v : Voice) (lang : String) : Bool :=
  prefixL (primarySubtag lang) v.lang.toList

/-- The name test of `getPreferredVoice`: the lowercased voice name contains
one of the fixed tokens (`voice.name.toLowerCase().includes(...)`). -/
def nameHasHint (v : Voice) : Bool :=
  femaleTokens.any (fun t => hasSubL t.toList (lowerL v.name.toList))

/-- `BrowserTTS.getPreferredVoice` (speechSynthesis.ts lines 50-79), with the
voice catalog `this.voices` passed explicitly: first voice passing both the
language and the feminine-name test; else first voice passing the language
test; else the catalog's first voice; else none. -/
def getPreferredVoice (voices : List Voice) (lang : String) : Option Voice :=
  let femaleVoices := voices.filter (fun v => langMatches v lang && nameHasHint v)
  match femaleVoices.head? with
  | some v => some v
  | none =>
      let langVoices := voices.filter (fun v => langMatches v lang)
      match langVoices.head? with
      | some v => some v
      | none => voices.head?

/-- Fully case-insensitive variant of the 3-tier selection, written after the
spec's words ("Matching is case-insensitive", including the language-prefix
match); compared against `getPreferredVoice` to locate where they differ. -/
def selectPreferredVoiceSpec (voices : List Voice) (lang : String) : Option Voice :=
  let ciLang := fun (v : Voice) => prefixL (lowerL (primarySubtag lang)) (lowerL v.lang.toList)
  match (voices.filter (fun v => ciLang v && nameHasHint v)).head? with
  | some v => some v
  | none =>
      match (voices.filter (fun v => ciLang v)).head? with
      | some v => some v
      | none => voices.head?

/-- State of the `BrowserTTS` adapter for the utterance lifecycle.
`current` is `this.currentUtterance` (utterances are numbered by creation
order, `nextId` being the next number);
`alive` records every utterance whose `onend`/`onerror` handlers are attached
(the source attaches them at creation, lines 117-135, and never detaches them);
`cancelled` records utterances on which `synthesis.cancel()` was invoked;
`fired` records, with multiplicity, utterances whose caller-facing
`onEnd`/`onError` callback has run. -/
structure TTS where
  supported : Bool
  current : Option Nat
  alive : List Nat
  cancelled : List Nat
  fired : List Nat
  nextId : Nat
deriving DecidableEq, Repr

/-- A freshly constructed adapter (no utterance yet). -/
def initTTS (supported : Bool) : TTS :=
  { supported := supported, current := none, alive := [], cancelled := [],
    fired := [], nextId := 0 }

/-- `BrowserTTS.stop` (lines 161-167): when an utterance is current,
`synthesis.cancel()` runs and `this.currentUtterance` is nulled; otherwise a
no-op. -/
def stopTTS (s : TTS) : TTS :=
  if s.supported then
    match s.current with
    | some u => { s with current := none, cancelled := u :: s.cancelled }
    | none => s
  else s

/-- `BrowserTTS.speak` (lines 81-159): resolves immediately with a failure
when unsupported; otherwise calls `this.stop()`, creates a new utterance with
its `onend`/`onerror` handlers attached, and stores it in
`this.currentUtterance`.  Returns the new utterance's number. -/
def speakTTS (s : TTS) : TTS × Option Nat :=
  if s.supported then
    let s1 := stopTTS s
    ({ s1 with current := some s.nextId, alive := s.nextId :: s1.alive,
               nextId := s.nextId + 1 },
     some s.nextId)
  else (s, none)

/-- A terminal platform event for utterance number `u`: the platform reports
the utterance ended, or reports an error (the Web Speech API reports a
cancelled in-flight utterance through exactly such an error event, with error
code interrupted or canceled). -/
inductive TEvent where
  | endEv (u : Nat)
  | errEv (u : Nat)
deriving DecidableEq, Repr

/-- Delivery of one terminal platform event: the handler the source attached
to utterance `u` runs if `u` still has handlers attached (the platform fires
at most one terminal event per utterance, hence `u` is removed from `alive`).
Both handler bodies (lines 122-135) set `this.currentUtterance = null`
unconditionally and fire the caller's callback. -/
def deliverTTS (s : TTS) (e : TEvent) : TTS :=
  match e with
  | TEvent.endEv u =>
      if u ∈ s.alive then
        { s with current := none, fired := u :: s.fired, alive := s.alive.erase u }
      else s
  | TEvent.errEv u =>
      if u ∈ s.alive then
        { s with current := none, fired := u :: s.fired, alive := s.alive.erase u }
      else s

end SpeechSynth

/-- Combined world for claims relating the coordinator to the speech-output
adapter: `VoiceInterviewScreen.tsx` neither imports nor invokes
`speechSynthesis.ts`, so every coordinator handler leaves the adapter state
untouched. -/
structure World where
  coord : VoiceInterview.CoordState
  tts : SpeechSynth.TTS
deriving DecidableEq, Repr

/-- `endInterview` acting on the combined world: the coordinator's teardown
(which makes no call into the speech-output adapter). -/
def endInterviewWorld (endOk : Bool) (w : World) : World × List VoiceInterview.Call :=
  let (c, cs) := VoiceInterview.endInterview endOk w.coord
  ({ coord := c, tts := w.tts }, cs)

namespace Fixtures

open VoiceInterview SpeechSynth

/-- A concrete session handle, as returned by a successful session start. -/
def sess0 : VoiceSession :=
  { sessionId := 7, wsUrl := "ws", participantToken := "tok", firstQuestion := some "Q1" }

/-- A paused session: handle held, transport still connected, nothing active. -/
def pausedState : CoordState :=
  { initState with voiceSession := some sess0, connectionStatus := ConnStatus.connected }

/-- An active session holding the spec scenario's transcript. -/
def activeState : CoordState :=
  { initState with isInterviewActive := true, voiceSession := some sess0,
                   connectionStatus := ConnStatus.connected,
                   transcript := "I have five years of experience",
                   isListening := true, audioActive := true, livekitConnected := true,
                   startTime := some 0 }

/-- A world in which the speech-output adapter has utterance 0 in flight. -/
def wUtt : World :=
  { coord := activeState,
    tts := { supported := true, current := some 0, alive := [0], cancelled := [],
             fired := [], nextId := 1 } }

/-- A start environment in which session creation succeeds but the transport
connect rejects. -/
def startEnvConnFail : StartEnv :=
  { session := some sess0, connectOk := false, now := 0 }

/-- The voice named "Microsoft Zira" with language "en-US" of the spec's
first selection example. -/
def ziraVoice : Voice := { name := "Microsoft Zira", lang := "en-US" }

/-- The voice named "Generic" with language "en-GB" of the spec's first
selection example. -/
def genericGBVoice : Voice := { name := "Generic", lang := "en-GB" }

/-- A lone "en-US" voice with no feminine-name token, for the "fr-FR" example. -/
def genericUSVoice : Voice := { name := "Generic", lang := "en-US" }

/-- A German voice, first in the catalog of the case-sensitivity counterexample. -/
def genericDEVoice : Voice := { name := "Generic", lang := "de-DE" }

/-- A voice whose language tag is upper-case "EN-US": it matches "en-US"
case-insensitively but not under the source's case-sensitive prefix test. -/
def ziraCapsVoice : Voice := { name := "Zira", lang := "EN-US" }

end Fixtures

section Theorems

open VoiceInterview SpeechSynth Fixtures

/-- Helper: taking the head of a filtered list is the first element satisfying
the predicate. -/
theorem head_filter_eq_find {α : Type} (p : α → Bool) :
    ∀ l : List α, (l.filter p).head? = l.find? p
  | [] => rfl
  | a :: t => by
      by_cases h : p a = true
      · simp [List.filter_cons, h, List.find?_cons, head_filter_eq_find p t]
      · simp [List.filter_cons, h, List.find?_cons, head_filter_eq_find p t]

/-- C1, counterexample: from an active session with utterance 0 in flight in
the speech-output adapter, `endInterview` reaches the ended state but leaves
the utterance in flight — `VoiceInterviewScreen.tsx` never invokes the
speech-output adapter, so "releases ... any in-flight speech-output
utterance" fails. -/
theorem C1_end_leaves_utterance_in_flight :
    (endInterviewWorld true wUtt).1.coord.ended = true ∧
    (endInterviewWorld true wUtt).1.tts.current = some 0 ∧
    ¬ (endInterviewWorld true wUtt).1.tts.current = none := by
  decide

/-- C1, amended: for every state and whether or not the remote end-session
call fails, `end()` reaches the ended state and releases speech-input
listening, the local audio track and the transport connection (the remote
call's failure is caught and only logged); the speech-output adapter's state,
in particular any in-flight utterance, is untouched since the coordinator
never calls into it. -/
theorem C1_end_best_effort_teardown (endOk : Bool) (w : World) :
    (endInterviewWorld endOk w).1.coord.ended = true ∧
    (endInterviewWorld endOk w).1.coord.isInterviewActive = false ∧
    (endInterviewWorld endOk w).1.coord.isListening = false ∧
    (endInterviewWorld endOk w).1.coord.audioActive = false ∧
    (endInterviewWorld endOk w).1.coord.livekitConnected = false ∧
    (endInterviewWorld endOk w).1.tts = w.tts := by
  cases h : w.coord.voiceSession <;>
    simp [endInterviewWorld, VoiceInterview.endInterview, h]

/-- C2, counterexample: when remote session creation succeeds and the
transport connect then rejects, the coordinator keeps the created session
handle and never issues an end-session call — the claimed cleanup of partial
side effects does not happen and a resource remains acquired. -/
theorem C2_connect_failure_no_cleanup :
    (startVoiceInterview startEnvConnFail initState).1.voiceSession = some sess0 ∧
    Call.endSessionCall ∉ (startVoiceInterview startEnvConnFail initState).2 ∧
    ¬ ((startVoiceInterview startEnvConnFail initState).1.voiceSession = none ∧
       Call.endSessionCall ∈ (startVoiceInterview startEnvConnFail initState).2) := by
  decide

/-- C2, amended: if either awaited call of `start()` rejects, the coordinator
transitions to the error status with the thinking flag cleared; when remote
session creation itself rejects, no transport connection attempt is
observable and no session handle is acquired; but when the transport connect
rejects after session creation, the created session handle remains held and
no end-session cleanup call is issued. -/
theorem C2_start_failure_error_no_cleanup (s : CoordState) (sess : VoiceSession)
    (co : Bool) (n m : Nat) :
    (let r := startVoiceInterview { session := none, connectOk := co, now := n } s
     r.1.connectionStatus = ConnStatus.error ∧ r.1.isThinking = false ∧
     r.1.voiceSession = s.voiceSession ∧ r.1.isInterviewActive = s.isInterviewActive ∧
     Call.connectCall ∉ r.2 ∧ Call.endSessionCall ∉ r.2) ∧
    (let r := startVoiceInterview { session := some sess, connectOk := false, now := m } s
     r.1.connectionStatus = ConnStatus.error ∧ r.1.isThinking = false ∧
     r.1.voiceSession = some sess ∧ Call.endSessionCall ∉ r.2) := by
  constructor <;> simp [startVoiceInterview]

/-- C3, confirmed: when the remote submit call rejects, the coordinator stays
active, the session is not ended (no end-session call, ended flag unchanged)
and the transcript is left un-reset. -/
theorem C3_submission_failure_preserves (s : CoordState) (sess : VoiceSession)
    (simOk endOk : Bool)
    (ha : s.isInterviewActive = true)
    (ht : trimNonempty s.transcript = true)
    (hs : s.voiceSession = some sess) :
    (submitVoiceResponse { result := none, simOk := simOk, endOk := endOk } s).1.isInterviewActive
        = true ∧
    (submitVoiceResponse { result := none, simOk := simOk, endOk := endOk } s).1.transcript
        = s.transcript ∧
    (submitVoiceResponse { result := none, simOk := simOk, endOk := endOk } s).1.ended
        = s.ended ∧
    (submitVoiceResponse { result := none, simOk := simOk, endOk := endOk } s).1.voiceSession
        = s.voiceSession ∧
    (submitVoiceResponse { result := none, simOk := simOk, endOk := endOk } s).1.currentQuestion
        = s.currentQuestion ∧
    Call.endSessionCall ∉ (submitVoiceResponse { result := none, simOk := simOk, endOk := endOk } s).2 ∧
    Call.resetTranscriptCall ∉ (submitVoiceResponse { result := none, simOk := simOk, endOk := endOk } s).2 := by
  simp [submitVoiceResponse, ht, hs, ha]

/-- Witness for C3 at the active scenario state with a failing remote call. -/
theorem C3_submission_failure_preserves_witness :
    (activeState.isInterviewActive = true ∧
     trimNonempty activeState.transcript = true ∧
     activeState.voiceSession = some sess0) ∧
    ((submitVoiceResponse { result := none, simOk := true, endOk := true } activeState).1.isInterviewActive
        = true ∧
     (submitVoiceResponse { result := none, simOk := true, endOk := true } activeState).1.transcript
        = activeState.transcript ∧
     (submitVoiceResponse { result := none, simOk := true, endOk := true } activeState).1.ended
        = activeState.ended ∧
     (submitVoiceResponse { result := none, simOk := true, endOk := true } activeState).1.voiceSession
        = activeState.voiceSession ∧
     (submitVoiceResponse { result := none, simOk := true, endOk := true } activeState).1.currentQuestion
        = activeState.currentQuestion ∧
     Call.endSessionCall ∉ (submitVoiceResponse { result := none, simOk := true, endOk := true } activeState).2 ∧
     Call.resetTranscriptCall ∉ (submitVoiceResponse { result := none, simOk := true, endOk := true } activeState).2) :=
  ⟨⟨by decide, by decide, by decide⟩,
   C3_submission_failure_preserves activeState sess0 true true (by decide) (by decide) (by decide)⟩

/-- C4, counterexample: from an already-paused session, a further `pause()`
leaves the state paused but re-issues all three teardown calls (stop
listening, stop audio, notify the remote session client) — they are repeated
for the second call, contrary to the claim. -/
theorem C4_second_pause_repeats_teardown :
    (pauseInterview true (pauseInterview true pausedState).1).1.isInterviewActive = false ∧
    Call.stopListeningCall ∈ (pauseInterview true (pauseInterview true pausedState).1).2 ∧
    Call.stopAudioCall ∈ (pauseInterview true (pauseInterview true pausedState).1).2 ∧
    Call.pauseSessionCall ∈ (pauseInterview true (pauseInterview true pausedState).1).2 ∧
    ¬ (pauseInterview true (pauseInterview true pausedState).1).2 = [] := by
  decide

/-- C4, amended: repeated `pause()` is idempotent on the state — a second
pause from the paused state leaves the state unchanged and still paused — but
the teardown calls are re-issued on every invocation rather than skipped:
every call stops listening and audio again, and (as the concrete paused
session shows) notifies the remote session client again. -/
theorem C4_pause_idempotent_on_state_only (s : CoordState) (a b : Bool) :
    ((pauseInterview b (pauseInterview a s).1).1 = (pauseInterview a s).1 ∧
     (pauseInterview b (pauseInterview a s).1).1.isInterviewActive = false ∧
     Call.stopListeningCall ∈ (pauseInterview b (pauseInterview a s).1).2 ∧
     Call.stopAudioCall ∈ (pauseInterview b (pauseInterview a s).1).2) ∧
    (pauseInterview true pausedState).2
      = [Call.stopListeningCall, Call.stopAudioCall, Call.pauseSessionCall] := by
  refine ⟨?_, by decide⟩
  cases hv : s.voiceSession <;> simp [pauseInterview, hv]

/-- C5, counterexample: resuming the paused session when the remote resume
rejects leaves the coordinator marked active with the connection status
unchanged (connected) — it does not transition to the error status. -/
theorem C5_resume_failure_not_error :
    (resumeInterview false true pausedState).1.isInterviewActive = true ∧
    (resumeInterview false true pausedState).1.connectionStatus = ConnStatus.connected ∧
    ¬ (resumeInterview false true pausedState).1.connectionStatus = ConnStatus.error := by
  decide

/-- C5, amended: `resume()` marks the session active before awaiting anything,
and a failure of the remote resume or of local audio re-acquisition is caught
and only logged: the coordinator ends up marked active with the failure
swallowed, the connection status (hence any error state) never changes. -/
theorem C5_resume_failure_swallowed (s : CoordState) (rOk aOk : Bool) :
    (resumeInterview rOk aOk s).1.isInterviewActive = true ∧
    (resumeInterview rOk aOk s).1.connectionStatus = s.connectionStatus ∧
    (resumeInterview rOk aOk s).1.ended = s.ended ∧
    (resumeInterview rOk aOk s).1.voiceSession = s.voiceSession := by
  cases hv : s.voiceSession <;> cases rOk <;> cases aOk <;> simp [resumeInterview, hv]

/-- C6, counterexample: `speak` twice from a fresh supported adapter creates
utterances 0 ("hello") and 1 ("world") and cancels utterance 0; since the
source attaches `onend`/`onerror` handlers to each utterance and never
detaches them, the platform's error event for the cancelled utterance (the
Web Speech API reports cancellation of the in-flight utterance as an error
event) runs utterance 0's callback: "hello" fires once, not zero times. -/
theorem C6_superseded_callback_fires :
    (speakTTS (initTTS true)).2 = some 0 ∧
    (speakTTS (speakTTS (initTTS true)).1).2 = some 1 ∧
    (deliverTTS (deliverTTS (speakTTS (speakTTS (initTTS true)).1).1
        (TEvent.errEv 0)) (TEvent.endEv 1)).fired.count 1 = 1 ∧
    (deliverTTS (deliverTTS (speakTTS (speakTTS (initTTS true)).1).1
        (TEvent.errEv 0)) (TEvent.endEv 1)).fired.count 0 = 1 ∧
    ¬ (deliverTTS (deliverTTS (speakTTS (speakTTS (initTTS true)).1).1
        (TEvent.errEv 0)) (TEvent.endEv 1)).fired.count 0 = 0 := by
  decide

/-- C6, amended: every `speak` call on a supported adapter first cancels the
in-flight utterance, so at most one utterance is current at any time and the
new utterance becomes the current one; but the superseded utterance's
handlers remain attached (`alive`), and in the hello/world scenario where the
platform reports the cancellation of "hello" as an error event, both
callbacks fire exactly once — zero firings for the superseded utterance is
not guaranteed. -/
theorem C6_speak_cancels_previous (c : Option Nat) (al ca f : List Nat) (n : Nat) :
    (let s0 : TTS := { supported := true, current := c, alive := al, cancelled := ca,
                       fired := f, nextId := n }
     (speakTTS s0).2 = some n ∧
     (speakTTS (speakTTS s0).1).2 = some (n + 1) ∧
     (speakTTS (speakTTS s0).1).1.current = some (n + 1) ∧
     n ∈ (speakTTS (speakTTS s0).1).1.cancelled ∧
     n ∈ (speakTTS (speakTTS s0).1).1.alive) ∧
    ((deliverTTS (deliverTTS (speakTTS (speakTTS (initTTS true)).1).1
        (TEvent.errEv 0)) (TEvent.endEv 1)).fired.count 1 = 1 ∧
     (deliverTTS (deliverTTS (speakTTS (speakTTS (initTTS true)).1).1
        (TEvent.errEv 0)) (TEvent.endEv 1)).fired.count 0 = 1) := by
  refine ⟨?_, by decide⟩
  cases c <;> simp [speakTTS, stopTTS]

/-- C7, counterexample: over the catalog [Generic/de-DE, Zira/EN-US] with
requested language "en-US", the fully case-insensitive 3-tier rule of the
claim selects Zira, but the source's language test
(`voice.lang.startsWith(lang.split('-')[0])`) is case-sensitive, so both
language tiers miss "EN-US" and the final fallback returns the catalog's
first voice, Generic. -/
theorem C7_lang_match_case_sensitive :
    getPreferredVoice [genericDEVoice, ziraCapsVoice] "en-US" = some genericDEVoice ∧
    selectPreferredVoiceSpec [genericDEVoice, ziraCapsVoice] "en-US" = some ziraCapsVoice ∧
    ¬ getPreferredVoice [genericDEVoice, ziraCapsVoice] "en-US"
        = selectPreferredVoiceSpec [genericDEVoice, ziraCapsVoice] "en-US" := by
  decide

/-- C7, amended: `getPreferredVoice` implements the deterministic 3-tier
fallback — first voice matching the language prefix and carrying a feminine
name token, else first voice matching the language prefix, else the catalog's
first voice, else none — where the name matching is case-insensitive but the
language prefix test is case-sensitive; both concrete examples of the claim
hold. -/
theorem C7_three_tier_fallback (voices : List Voice) (lang : String) :
    (getPreferredVoice voices lang =
      match voices.find? (fun v => langMatches v lang && nameHasHint v) with
      | some v => some v
      | none =>
          match voices.find? (fun v => langMatches v lang) with
          | some v => some v
          | none => voices.head?) ∧
    getPreferredVoice [ziraVoice, genericGBVoice] "en-US" = some ziraVoice ∧
    getPreferredVoice [genericUSVoice] "fr-FR" = some genericUSVoice := by
  refine ⟨?_, by decide, by decide⟩
  simp [getPreferredVoice, head_filter_eq_find]

/-- C8, confirmed: a successful submission whose result has `isComplete =
false` and carries a next question updates the current question to that
question's text, resets the transcript to empty, and leaves the session
active and not ended. -/
theorem C8_submit_advances_question (s : CoordState) (sess : VoiceSession)
    (q : String) (eo : Bool)
    (ha : s.isInterviewActive = true)
    (ht : trimNonempty s.transcript = true)
    (hs : s.voiceSession = some sess) :
    (submitVoiceResponse
        { result := some { isComplete := false, nextQuestion := some { question := q } },
          simOk := true, endOk := eo } s).1.currentQuestion = q ∧
    (submitVoiceResponse
        { result := some { isComplete := false, nextQuestion := some { question := q } },
          simOk := true, endOk := eo } s).1.transcript = "" ∧
    (submitVoiceResponse
        { result := some { isComplete := false, nextQuestion := some { question := q } },
          simOk := true, endOk := eo } s).1.isInterviewActive = true ∧
    (submitVoiceResponse
        { result := some { isComplete := false, nextQuestion := some { question := q } },
          simOk := true, endOk := eo } s).1.ended = s.ended ∧
    Call.endSessionCall ∉ (submitVoiceResponse
        { result := some { isComplete := false, nextQuestion := some { question := q } },
          simOk := true, endOk := eo } s).2 := by
  simp [submitVoiceResponse, ht, hs, ha]

/-- Witness for C8 at the spec scenario: transcript "I have five years of
experience", next question "Tell me about a challenge you faced.". -/
theorem C8_submit_advances_question_witness :
    (activeState.isInterviewActive = true ∧
     trimNonempty activeState.transcript = true ∧
     activeState.voiceSession = some sess0) ∧
    ((submitVoiceResponse
        { result := some { isComplete := false,
                           nextQuestion := some { question := "Tell me about a challenge you faced." } },
          simOk := true, endOk := true } activeState).1.currentQuestion
        = "Tell me about a challenge you faced." ∧
     (submitVoiceResponse
        { result := some { isComplete := false,
                           nextQuestion := some { question := "Tell me about a challenge you faced." } },
          simOk := true, endOk := true } activeState).1.transcript = "" ∧
     (submitVoiceResponse
        { result := some { isComplete := false,
                           nextQuestion := some { question := "Tell me about a challenge you faced." } },
          simOk := true, endOk := true } activeState).1.isInterviewActive = true ∧
     (submitVoiceResponse
        { result := some { isComplete := false,
                           nextQuestion := some { question := "Tell me about a challenge you faced." } },
          simOk := true, endOk := true } activeState).1.ended = activeState.ended ∧
     Call.endSessionCall ∉ (submitVoiceResponse
        { result := some { isComplete := false,
                           nextQuestion := some { question := "Tell me about a challenge you faced." } },
          simOk := true, endOk := true } activeState).2) :=
  ⟨⟨by decide, by decide, by decide⟩,
   C8_submit_advances_question activeState sess0 "Tell me about a challenge you faced." true
     (by decide) (by decide) (by decide)⟩

/-- C9, confirmed: submitting with an empty or whitespace-only transcript, or
with no session handle, is a no-op — the state is returned unchanged and no
external call is made. -/
theorem C9_submit_noop (s : CoordState) (env : SubmitEnv)
    (h : trimNonempty s.transcript = false ∨ s.voiceSession = none) :
    submitVoiceResponse env s = (s, []) := by
  unfold submitVoiceResponse
  rw [if_pos h]

/-- Witness for C9 at the initial state (empty transcript, no session). -/
theorem C9_submit_noop_witness :
    (trimNonempty initState.transcript = false ∨ initState.voiceSession = none) ∧
    submitVoiceResponse { result := none, simOk := true, endOk := true } initState
      = (initState, []) :=
  ⟨Or.inl (by decide),
   C9_submit_noop initState { result := none, simOk := true, endOk := true }
     (Or.inl (by decide))⟩

/-- C10, confirmed: a successful submission whose result has `isComplete =
false` and no next question leaves the current question and the transcript
unchanged (no reset), does not end the session, and keeps the active flag as
it was. -/
theorem C10_submit_no_next_question (s : CoordState) (sess : VoiceSession) (eo : Bool)
    (ht : trimNonempty s.transcript = true)
    (hs : s.voiceSession = some sess) :
    (submitVoiceResponse
        { result := some { isComplete := false, nextQuestion := none },
          simOk := true, endOk := eo } s).1.currentQuestion = s.currentQuestion ∧
    (submitVoiceResponse
        { result := some { isComplete := false, nextQuestion := none },
          simOk := true, endOk := eo } s).1.transcript = s.transcript ∧
    (submitVoiceResponse
        { result := some { isComplete := false, nextQuestion := none },
          simOk := true, endOk := eo } s).1.ended = s.ended ∧
    (submitVoiceResponse
        { result := some { isComplete := false, nextQuestion := none },
          simOk := true, endOk := eo } s).1.isInterviewActive = s.isInterviewActive ∧
    Call.endSessionCall ∉ (submitVoiceResponse
        { result := some { isComplete := false, nextQuestion := none },
          simOk := true, endOk := eo } s).2 ∧
    Call.resetTranscriptCall ∉ (submitVoiceResponse
        { result := some { isComplete := false, nextQuestion := none },
          simOk := true, endOk := eo } s).2 := by
  simp [submitVoiceResponse, ht, hs]

/-- Witness for C10 at the active scenario state. -/
theorem C10_submit_no_next_question_witness :
    (trimNonempty activeState.transcript = true ∧
     activeState.voiceSession = some sess0) ∧
    ((submitVoiceResponse
        { result := some { isComplete := false, nextQuestion := none },
          simOk := true, endOk := true } activeState).1.currentQuestion
        = activeState.currentQuestion ∧
     (submitVoiceResponse
        { result := some { isComplete := false, nextQuestion := none },
          simOk := true, endOk := true } activeState).1.transcript = activeState.transcript ∧
     (submitVoiceResponse
        { result := some { isComplete := false, nextQuestion := none },
          simOk := true, endOk := true } activeState).1.ended = activeState.ended ∧
     (submitVoiceResponse
        { result := some { isComplete := false, nextQuestion := none },
          simOk := true, endOk := true } activeState).1.isInterviewActive
        = activeState.isInterviewActive ∧
     Call.endSessionCall ∉ (submitVoiceResponse
        { result := some { isComplete := false, nextQuestion := none },
          simOk := true, endOk := true } activeState).2 ∧
     Call.resetTranscriptCall ∉ (submitVoiceResponse
        { result := some { isComplete := false, nextQuestion := none },
          simOk := true, endOk := true } activeState).2) :=
  ⟨⟨by decide, by decide⟩,
   C10_submit_no_next_question activeState sess0 true (by decide) (by decide)⟩

end Theorems

